import Mathlib

/-!
Verification development for the pipe hydraulics calculator (`flask_app.py`).

The program is a single Flask handler around a pure numeric pipeline:
parse five form fields with Python's `float`, compute area, velocity,
Reynolds number, Blasius friction factor, Darcy-Weisbach head loss and
pressure drop, and format the results.  The embedding below models
Python float values as exact reals extended with the special values
`inf`, `-inf` and `nan` (and an abstract marker for the complex values
Python produces when a negative float is raised to a fractional power;
no claim inspects a complex payload, and complex values never reach a
comparison or a zero divisor on the paths reasoned about).  Python
raises `ZeroDivisionError` whenever the divisor is the float `0.0`
(this is modelled exactly: Python floats do not silently divide by
zero), and `float(s)` raises `ValueError` on unparseable strings.
Decimal formatting is modelled as correctly-rounded fixed-point
rendering of the exact real value.
-/

set_option maxHeartbeats 1000000

namespace FlaskApp

/-- Gravitational constant from line 7 of the source: `g = 9.81`. -/
noncomputable def g : ℝ := 9.81

/-- The Python exception classes relevant to this program. -/
inductive PyErr where
  | valueError
  | zeroDivision
  | keyError
  deriving DecidableEq

/-- A Python numeric value as produced by the pipeline: a finite float
(idealised as an exact real), one of the IEEE special values, or a
complex number (abstract marker; Python returns a complex value from
`x ** 0.25` when `x` is a finite negative float). -/
inductive PyNum where
  | finite (x : ℝ)
  | inf
  | negInf
  | nan
  | cplx

/-- The result of `float(s)`: like `PyNum` but a finite value is kept
as an exact scaled decimal, an integer mantissa `m` with a power-of-ten
exponent `e` denoting `m * 10 ^ e` (a decimal string denotes exactly
such a value), so results of the parser are decidable. -/
inductive PreNum where
  | finite (m e : ℤ)
  | inf
  | negInf
  | nan
  deriving DecidableEq

/-- Injection of parsed values into the numeric domain. -/
noncomputable def PreNum.toPyNum : PreNum → PyNum
  | .finite m e => .finite ((m : ℝ) * 10 ^ e)
  | .inf => .inf
  | .negInf => .negInf
  | .nan => .nan

/-- Default density from line 8 of the source: `rho_water = 1000`. -/
def rho_water : PreNum := .finite 1000 0

/-- Default viscosity from line 9 of the source: `mu_water = 0.001`. -/
def mu_water : PreNum := .finite 1 (-3)

/-- Python float multiplication.  `nan` is absorbing, infinities follow
the sign of the finite factor, `inf * 0.0 = nan`, and any product with
a complex operand is complex. -/
noncomputable def pymul : PyNum → PyNum → PyNum
  | .cplx, _ => .cplx
  | _, .cplx => .cplx
  | .nan, _ => .nan
  | _, .nan => .nan
  | .finite a, .finite b => .finite (a * b)
  | .finite a, .inf => if 0 < a then .inf else if a < 0 then .negInf else .nan
  | .finite a, .negInf => if 0 < a then .negInf else if a < 0 then .inf else .nan
  | .inf, .finite b => if 0 < b then .inf else if b < 0 then .negInf else .nan
  | .negInf, .finite b => if 0 < b then .negInf else if b < 0 then .inf else .nan
  | .inf, .inf => .inf
  | .inf, .negInf => .negInf
  | .negInf, .inf => .negInf
  | .negInf, .negInf => .inf

/-- Python float division.  Python raises `ZeroDivisionError` whenever
the divisor is the float `0.0`, no matter the dividend (including
`inf / 0.0` and `nan / 0.0`); otherwise `nan` propagates, a finite
value divided by an infinity is `0.0`, an infinity divided by an
infinity is `nan`, and divisions involving a complex operand stay
complex (the complex divisors reachable in this program are nonzero). -/
noncomputable def pydiv (a b : PyNum) : Except PyErr PyNum :=
  match a, b with
  | a, .finite b0 =>
    if b0 = 0 then .error .zeroDivision
    else
      match a with
      | .finite a0 => .ok (.finite (a0 / b0))
      | .inf => .ok (if 0 < b0 then .inf else .negInf)
      | .negInf => .ok (if 0 < b0 then .negInf else .inf)
      | .nan => .ok .nan
      | .cplx => .ok .cplx
  | _, .cplx => .ok .cplx
  | .cplx, _ => .ok .cplx
  | .nan, _ => .ok .nan
  | _, .nan => .ok .nan
  | .finite _, .inf => .ok (.finite 0)
  | .finite _, .negInf => .ok (.finite 0)
  | .inf, .inf => .ok .nan
  | .inf, .negInf => .ok .nan
  | .negInf, .inf => .ok .nan
  | .negInf, .negInf => .ok .nan

/-- Python `x ** 2` on a float. -/
noncomputable def pySq : PyNum → PyNum
  | .finite a => .finite (a ^ 2)
  | .inf => .inf
  | .negInf => .inf
  | .nan => .nan
  | .cplx => .cplx

/-- Python `x ** 0.25` on a float: a real fourth root for nonnegative
finite values, `inf ** 0.25 = inf`, `nan ** 0.25 = nan`, and a complex
result for a negative finite base (Python returns a complex number
there).  The `negInf` branch is also marked complex; no claim depends
on it. -/
noncomputable def pyPowQuarter : PyNum → PyNum
  | .finite a => if a < 0 then .cplx else .finite (a ^ (0.25 : ℝ))
  | .inf => .inf
  | .negInf => .cplx
  | .nan => .nan
  | .cplx => .cplx

/-- Python `x < c` for a float `x` against a finite literal `c`:
comparisons with `nan` are false, `-inf` is below everything, `inf`
above everything.  The `cplx` case is unreachable where this is used
(the Reynolds number is never complex). -/
noncomputable def pylt (a : PyNum) (c : ℝ) : Bool :=
  match a with
  | .finite x => decide (x < c)
  | .inf => false
  | .negInf => true
  | .nan => false
  | .cplx => false

/-- Exact text of the laminar-flow advisory, line 14 of the source. -/
def laminarWarning : String :=
  "Warning: Laminar flow (Re < 2100). Formula may not apply accurately."

/-- Lines 11-16 of the source: set the warning when `Re < 2100`, then
compute the Blasius friction factor `0.3164 / Re ** 0.25` (the division
raises when `Re ** 0.25` is the float `0.0`, i.e. when `Re = 0`). -/
noncomputable def calculate_friction_factor (Re : PyNum) :
    Except PyErr (PyNum × String) := do
  let warning := if pylt Re 2100 then laminarWarning else ""
  let f ← pydiv (.finite 0.3164) (pyPowQuarter Re)
  return (f, warning)

/-- The numeric outputs of lines 29-34 of the source. -/
structure EngineOut where
  V : PyNum
  Re : PyNum
  f : PyNum
  hf : PyNum
  delta_P : PyNum
  warning : String

/-- Lines 29-34 of the source, the hydraulics engine:
`A = math.pi * (D / 2) ** 2`, `V = Q / A`, `Re = (rho * V * D) / mu`,
`f, warning = calculate_friction_factor(Re)`,
`hf = f * (L / D) * (V ** 2 / (2 * g))`, `delta_P = rho * g * hf`. -/
noncomputable def engine (L D Q rho mu : PyNum) : Except PyErr EngineOut := do
  let halfD ← pydiv D (.finite 2)
  let A := pymul (.finite Real.pi) (pySq halfD)
  let V ← pydiv Q A
  let Re ← pydiv (pymul (pymul rho V) D) mu
  let fw ← calculate_friction_factor Re
  let LD ← pydiv L D
  let vg ← pydiv (pySq V) (pymul (.finite 2) (.finite g))
  let hf := pymul (pymul fw.1 LD) vg
  let delta_P := pymul (pymul rho (.finite g)) hf
  return ⟨V, Re, fw.1, hf, delta_P, fw.2⟩

instance {ε α : Type} [DecidableEq ε] [DecidableEq α] : DecidableEq (Except ε α)
  | .ok x, .ok y =>
    if h : x = y then .isTrue (congrArg Except.ok h)
    else .isFalse (fun hc => h (Except.ok.inj hc))
  | .error x, .error y =>
    if h : x = y then .isTrue (congrArg Except.error h)
    else .isFalse (fun hc => h (Except.error.inj hc))
  | .ok _, .error _ => .isFalse (fun hc => Except.noConfusion hc)
  | .error _, .ok _ => .isFalse (fun hc => Except.noConfusion hc)

/-- Digit test for the decimal parser. -/
def isDig (c : Char) : Bool := '0' ≤ c && c ≤ '9'

/-- Numeric value of a digit character. -/
def digVal (c : Char) : ℕ := c.toNat - 48

/-- Split a character list into its leading run of digits and the rest. -/
def takeDigits : List Char → List Char × List Char
  | [] => ([], [])
  | c :: cs =>
    if isDig c then
      let p := takeDigits cs
      (c :: p.1, p.2)
    else ([], c :: cs)

/-- Value of a digit list read in base 10. -/
def natOfDigits (l : List Char) : ℕ := l.foldl (fun n c => 10 * n + digVal c) 0

/-- The decimal part of Python's `float` grammar, after sign removal:
`digits [. digits] [(e|E) [sign] digits]`, with at least one digit in
the mantissa.  Returns the denoted value as an exact scaled decimal,
mantissa and power-of-ten exponent.  (Underscore digit grouping,
accepted by recent Python versions, is not modelled; no claim involves
it.) -/
def parseUnsigned (cs : List Char) : Option (ℤ × ℤ) :=
  let p1 := takeDigits cs
  let ip := p1.1
  let p2 : List Char × List Char :=
    match p1.2 with
    | '.' :: rest => takeDigits rest
    | r => ([], r)
  let fp := p2.1
  if ip = [] ∧ fp = [] then none
  else
    let m : ℤ := (natOfDigits (ip ++ fp) : ℤ)
    let e0 : ℤ := -(fp.length : ℤ)
    match p2.2 with
    | [] => some (m, e0)
    | e :: rest =>
      if e = 'e' ∨ e = 'E' then
        let sr : ℤ × List Char :=
          match rest with
          | '+' :: t => (1, t)
          | '-' :: t => (-1, t)
          | t => (1, t)
        let p3 := takeDigits sr.2
        if p3.1 = [] ∨ p3.2 ≠ [] then none
        else some (m, e0 + sr.1 * (natOfDigits p3.1 : ℤ))
      else none

/-- Strip leading and trailing whitespace from a character list. -/
def trimChars (l : List Char) : List Char :=
  ((l.dropWhile Char.isWhitespace).reverse.dropWhile Char.isWhitespace).reverse

/-- Python's `float(s)` on a string: strip surrounding whitespace, take
an optional sign, accept `inf`, `infinity` and `nan` case-insensitively,
otherwise parse a decimal number; anything else raises `ValueError`. -/
def parsePyFloat (s : String) : Except PyErr PreNum :=
  let t := trimChars s.toList
  let sb : ℤ × List Char :=
    match t with
    | '+' :: r => (1, r)
    | '-' :: r => (-1, r)
    | r => (1, r)
  let lower := sb.2.map Char.toLower
  if lower = "inf".toList ∨ lower = "infinity".toList then
    .ok (if sb.1 = 1 then .inf else .negInf)
  else if lower = "nan".toList then .ok .nan
  else
    match parseUnsigned sb.2 with
    | some me => .ok (.finite (sb.1 * me.1) me.2)
    | none => .error .valueError

/-- Render an integer `n` as a fixed-point decimal string with `prec`
digits after the point (`prec = 0` renders a plain integer, no point),
where `n` is the value scaled by `10 ^ prec`. -/
def fixedString (prec : ℕ) (n : ℤ) : String :=
  if prec = 0 then toString n
  else
    let m := n.natAbs
    let ipStr := toString (m / 10 ^ prec)
    let fpStr := toString (m % 10 ^ prec)
    let pad := String.mk (List.replicate (prec - fpStr.length) '0') ++ fpStr
    (if n < 0 then "-" else "") ++ ipStr ++ "." ++ pad

/-- The value denoted by formatting `x` to `prec` decimal places and
reading the digits back: `x` rounded to the nearest multiple of
`10 ^ (-prec)`. -/
noncomputable def roundTo (prec : ℕ) (x : ℝ) : ℝ :=
  (round (x * 10 ^ prec) : ℤ) / 10 ^ prec

/-- Python fixed-point formatting `"{v:.<prec>f}"` of a float, as a
correctly-rounded rendering of the exact value; the special values
print as `inf`, `-inf` and `nan`, exactly as in Python.  (Complex
values never reach a format call on the paths reasoned about; the
placeholder marks that case.) -/
noncomputable def fmt (prec : ℕ) : PyNum → String
  | .finite x => fixedString prec (round (x * 10 ^ prec))
  | .inf => "inf"
  | .negInf => "-inf"
  | .nan => "nan"
  | .cplx => "(complex)"

/-- A rendered results mapping: either the six-field success record of
lines 36-43 of the source, or the error record of line 45. -/
inductive ResultsVal where
  | ok (V Re f hf delta_P warning : String)
  | err (msg : String)

/-- What the route handler produces for a request: a rendered page
(with an optional results block), or an uncaught exception escaping the
handler (Python `KeyError` from a missing required field, or
`ZeroDivisionError` from the engine, neither caught by the
`except ValueError` clause). -/
inductive Outcome where
  | page (results : Option ResultsVal)
  | crash (e : PyErr)

/-- HTTP method of the request. -/
inductive Method where
  | GET
  | POST

/-- First-match lookup in the submitted form, as in Flask's form
mapping. -/
def lookupField : List (String × String) → String → Option String
  | [], _ => none
  | (k, v) :: rest, key => if k = key then some v else lookupField rest key

/-- `request.form['k']` followed by `float`: a missing required key
raises a `KeyError`-class error; a present one is parsed. -/
def getRequired (form : List (String × String)) (k : String) :
    Except PyErr PreNum :=
  match lookupField form k with
  | none => .error .keyError
  | some s => parsePyFloat s

/-- `float(request.form.get(k, d))`: an absent optional key falls back
to the numeric default `d` (`float` of a number is exact); a present
one is parsed. -/
def getOptional (form : List (String × String)) (k : String) (d : PreNum) :
    Except PyErr PreNum :=
  match lookupField form k with
  | none => .ok d
  | some s => parsePyFloat s

/-- The body of the `try` block, lines 23-43 of the source: parse the
five fields, run the engine, and build the formatted results record
(including the `delta_P / 1000` division done inside the format
string). -/
noncomputable def postCompute (form : List (String × String)) :
    Except PyErr ResultsVal := do
  let L ← getRequired form "L"
  let D ← getRequired form "D"
  let Q ← getRequired form "Q"
  let rho ← getOptional form "rho" rho_water
  let mu ← getOptional form "mu" mu_water
  let e ← engine L.toPyNum D.toPyNum Q.toPyNum rho.toPyNum mu.toPyNum
  let dpk ← pydiv e.delta_P (.finite 1000)
  return .ok (fmt 3 e.V ++ " m/s") (fmt 0 e.Re) (fmt 4 e.f)
    (fmt 3 e.hf ++ " m")
    (fmt 0 e.delta_P ++ " Pa (" ++ fmt 2 dpk ++ " kPa)") e.warning

/-- Exact text of the parse-failure message, line 45 of the source. -/
def parseErrorMsg : String := "Please enter valid numbers."

/-- Lines 18-45 of the source, the route handler `calculator`: on GET,
render the page with no results; on POST, run the computation, catching
only `ValueError` (which becomes the error record) and letting every
other exception escape. -/
noncomputable def calculator (m : Method) (form : List (String × String)) :
    Outcome :=
  match m with
  | .GET => .page none
  | .POST =>
    match postCompute form with
    | .ok r => .page (some r)
    | .error .valueError => .page (some (.err parseErrorMsg))
    | .error e => .crash e

/-- Cross-sectional area formula of line 29: `A = math.pi * (D / 2) ** 2`. -/
noncomputable def Aval (D : ℝ) : ℝ := Real.pi * (D / 2) ^ 2

/-- Velocity formula of line 30: `V = Q / A`. -/
noncomputable def Vval (D Q : ℝ) : ℝ := Q / Aval D

/-- Reynolds-number formula of line 31: `Re = (rho * V * D) / mu`. -/
noncomputable def ReVal (D Q rho mu : ℝ) : ℝ := rho * Vval D Q * D / mu

/-- Blasius friction-factor formula of line 15: `f = 0.3164 / Re ** 0.25`. -/
noncomputable def fval (re : ℝ) : ℝ := 0.3164 / re ^ (0.25 : ℝ)

/-- Head-loss formula of line 33: `hf = f * (L / D) * (V ** 2 / (2 * g))`. -/
noncomputable def hfval (L D Q rho mu : ℝ) : ℝ :=
  fval (ReVal D Q rho mu) * (L / D) * (Vval D Q ^ 2 / (2 * g))

/-- Pressure-drop formula of line 34: `delta_P = rho * g * hf`. -/
noncomputable def dPval (L D Q rho mu : ℝ) : ℝ := rho * g * hfval L D Q rho mu

/-! ### Reduction lemmas for the embedded operations -/

@[simp] theorem ok_bind {α β : Type} (a : α) (f : α → Except PyErr β) :
    (Except.ok a : Except PyErr α) >>= f = f a := rfl

@[simp] theorem error_bind {α β : Type} (e : PyErr) (f : α → Except PyErr β) :
    (Except.error e : Except PyErr α) >>= f = .error e := rfl

@[simp] theorem pure_eq_ok {α : Type} (a : α) :
    (pure a : Except PyErr α) = .ok a := rfl

@[simp] theorem pymul_ff (a b : ℝ) :
    pymul (.finite a) (.finite b) = .finite (a * b) := rfl

@[simp] theorem pySq_f (a : ℝ) : pySq (.finite a) = .finite (a ^ 2) := rfl

@[simp] theorem pylt_f (a c : ℝ) : pylt (.finite a) c = decide (a < c) := rfl

theorem pydiv_ff (a b : ℝ) (h : b ≠ 0) :
    pydiv (.finite a) (.finite b) = .ok (.finite (a / b)) := by
  simp [pydiv, h]

theorem pydiv_zero_divisor (a : PyNum) :
    pydiv a (.finite 0) = .error .zeroDivision := by
  cases a <;> simp [pydiv]

theorem pyPowQuarter_f (a : ℝ) (h : 0 ≤ a) :
    pyPowQuarter (.finite a) = .finite (a ^ (0.25 : ℝ)) := by
  simp [pyPowQuarter, not_lt.mpr h]

/-- On finite inputs with a nonzero diameter, a nonzero viscosity and a
positive Reynolds number, the engine succeeds and returns exactly the
formulas of lines 29-34. -/
theorem engine_finite_ok (L D Q rho mu : ℝ) (hD : D ≠ 0) (hmu : mu ≠ 0)
    (hRe : 0 < ReVal D Q rho mu) :
    engine (.finite L) (.finite D) (.finite Q) (.finite rho) (.finite mu) =
      .ok ⟨.finite (Vval D Q), .finite (ReVal D Q rho mu),
           .finite (fval (ReVal D Q rho mu)), .finite (hfval L D Q rho mu),
           .finite (dPval L D Q rho mu),
           if ReVal D Q rho mu < 2100 then laminarWarning else ""⟩ := by
  have hpi := Real.pi_pos
  simp only [Vval, Aval, ReVal, fval, hfval, dPval] at hRe ⊢
  have hA : Real.pi * (D / 2) ^ 2 ≠ 0 := by positivity
  have hq : (rho * (Q / (Real.pi * (D / 2) ^ 2)) * D / mu) ^ (0.25 : ℝ) ≠ 0 :=
    (Real.rpow_pos_of_pos hRe _).ne'
  have h2g : (2 : ℝ) * g ≠ 0 := by norm_num [g]
  simp only [engine, calculate_friction_factor, pymul_ff, pySq_f, pylt_f,
    pydiv_ff D 2 two_ne_zero, ok_bind]
  simp only [pydiv_ff Q _ hA, ok_bind, pymul_ff]
  simp only [pydiv_ff _ mu hmu, ok_bind, pymul_ff, pySq_f, pylt_f]
  rw [pyPowQuarter_f _ hRe.le]
  simp only [pydiv_ff _ _ hq, ok_bind, pydiv_ff L D hD, pydiv_ff _ _ h2g,
    pymul_ff, pure_eq_ok, decide_eq_true_eq]

theorem g_pos : (0 : ℝ) < g := by
  unfold g
  norm_num

/-- The Reynolds number of the scenario `D = 1`, `Q = 1`, `rho = 1000`,
`mu = 0.001` is `4000000 / pi`, far above the laminar threshold. -/
theorem ReVal_default_not_laminar : ¬(ReVal 1 1 1000 (1 / 1000) < 2100) := by
  unfold ReVal Vval Aval
  rw [not_lt]
  have hpi := Real.pi_pos
  have hpi2 : Real.pi < 3.15 := Real.pi_lt_d2
  have h4 : (1000 : ℝ) * (1 / (Real.pi * (1 / 2) ^ 2)) * 1 / (1 / 1000) =
      4000000 / Real.pi := by
    field_simp
    ring
  rw [h4, le_div_iff hpi]
  nlinarith

/-! ### Claims -/

/-- C1: for every positive `(L, D, Q, rho, mu)` the engine computes, in
order, `A = pi * (D/2)^2`, `V = Q/A`, `Re = rho*V*D/mu`,
`f = 0.3164/Re^0.25`, `hf = f*(L/D)*(V^2/(2*g))` with `g = 9.81`, and
`deltaP = rho*g*hf`; in particular `V = Q/(pi*(D/2)^2)` holds exactly,
hence within relative tolerance `1e-9`. -/
theorem C1_engine_formulas (L D Q rho mu : ℝ)
    (hL : 0 < L) (hD : 0 < D) (hQ : 0 < Q) (hrho : 0 < rho) (hmu : 0 < mu) :
    engine (.finite L) (.finite D) (.finite Q) (.finite rho) (.finite mu) =
      .ok ⟨.finite (Vval D Q), .finite (ReVal D Q rho mu),
           .finite (fval (ReVal D Q rho mu)), .finite (hfval L D Q rho mu),
           .finite (dPval L D Q rho mu),
           if ReVal D Q rho mu < 2100 then laminarWarning else ""⟩ ∧
    Vval D Q = Q / (Real.pi * (D / 2) ^ 2) ∧
    ReVal D Q rho mu = rho * Vval D Q * D / mu ∧
    fval (ReVal D Q rho mu) = 0.3164 / ReVal D Q rho mu ^ (0.25 : ℝ) ∧
    hfval L D Q rho mu =
      fval (ReVal D Q rho mu) * (L / D) * (Vval D Q ^ 2 / (2 * 9.81)) ∧
    dPval L D Q rho mu = rho * 9.81 * hfval L D Q rho mu ∧
    |Vval D Q - Q / (Real.pi * (D / 2) ^ 2)| ≤
      1e-9 * |Q / (Real.pi * (D / 2) ^ 2)| := by
  have hRe : 0 < ReVal D Q rho mu := by
    unfold ReVal Vval Aval
    positivity
  refine ⟨engine_finite_ok L D Q rho mu hD.ne' hmu.ne' hRe, rfl, rfl, rfl,
    by norm_num [hfval, g], by norm_num [dPval, g], ?_⟩
  have : Vval D Q - Q / (Real.pi * (D / 2) ^ 2) = 0 := by
    simp [Vval, Aval]
  rw [this]
  simp
  positivity

/-- C1 witness: the theorem applied at the concrete positive input
`(1, 1, 1, 1, 1)`. -/
theorem C1_engine_formulas_witness :
    (0 : ℝ) < 1 ∧
    (engine (.finite 1) (.finite 1) (.finite 1) (.finite 1) (.finite 1) =
      .ok ⟨.finite (Vval 1 1), .finite (ReVal 1 1 1 1),
           .finite (fval (ReVal 1 1 1 1)), .finite (hfval 1 1 1 1 1),
           .finite (dPval 1 1 1 1 1),
           if ReVal 1 1 1 1 < 2100 then laminarWarning else ""⟩ ∧
     Vval 1 1 = 1 / (Real.pi * ((1 : ℝ) / 2) ^ 2) ∧
     ReVal 1 1 1 1 = 1 * Vval 1 1 * 1 / 1 ∧
     fval (ReVal 1 1 1 1) = 0.3164 / ReVal 1 1 1 1 ^ (0.25 : ℝ) ∧
     hfval 1 1 1 1 1 =
       fval (ReVal 1 1 1 1) * ((1 : ℝ) / 1) * (Vval 1 1 ^ 2 / (2 * 9.81)) ∧
     dPval 1 1 1 1 1 = 1 * 9.81 * hfval 1 1 1 1 1 ∧
     |Vval 1 1 - 1 / (Real.pi * ((1 : ℝ) / 2) ^ 2)| ≤
       1e-9 * |1 / (Real.pi * ((1 : ℝ) / 2) ^ 2)|) :=
  ⟨by norm_num,
   C1_engine_formulas 1 1 1 1 1 (by norm_num) (by norm_num) (by norm_num)
     (by norm_num) (by norm_num)⟩

/-- C2: whenever `calculate_friction_factor` returns a result for a
finite Reynolds number, the warning equals the exact laminar-flow text
if and only if `Re < 2100`, and is the empty string when
`Re >= 2100`. -/
theorem C2_warning_iff (re : ℝ) (fp : PyNum) (w : String)
    (h : calculate_friction_factor (.finite re) = .ok (fp, w)) :
    (w = laminarWarning ↔ re < 2100) ∧ (2100 ≤ re → w = "") := by
  have hw : w = if re < 2100 then laminarWarning else "" := by
    simp only [calculate_friction_factor, pylt_f] at h
    rcases hc : pydiv (.finite 0.3164) (pyPowQuarter (.finite re)) with e | v
    · rw [hc] at h
      simp at h
    · rw [hc] at h
      simp only [ok_bind, pure_eq_ok, Except.ok.injEq, Prod.mk.injEq,
        decide_eq_true_eq] at h
      exact h.2.symm
  subst hw
  by_cases hlt : re < 2100
  · simp [hlt]
  · have : ¬("" = laminarWarning) := by decide
    simp [hlt, this, not_lt.mp hlt]

/-- C2 witness: the theorem applied at `Re = 1000`, a laminar value. -/
theorem C2_warning_iff_witness :
    calculate_friction_factor (.finite 1000) =
      .ok (.finite (0.3164 / (1000 : ℝ) ^ (0.25 : ℝ)), laminarWarning) ∧
    ((laminarWarning = laminarWarning ↔ (1000 : ℝ) < 2100) ∧
      ((2100 : ℝ) ≤ 1000 → laminarWarning = "")) := by
  have hq : ((1000 : ℝ) ^ (0.25 : ℝ)) ≠ 0 :=
    (Real.rpow_pos_of_pos (by norm_num) _).ne'
  have h : calculate_friction_factor (.finite 1000) =
      .ok (.finite (0.3164 / (1000 : ℝ) ^ (0.25 : ℝ)), laminarWarning) := by
    rw [calculate_friction_factor, pyPowQuarter_f 1000 (by norm_num)]
    simp only [pylt_f, pydiv_ff _ _ hq, ok_bind, pure_eq_ok]
    norm_num
  exact ⟨h, C2_warning_iff 1000 _ _ h⟩

/-- C3: a zero diameter, a zero viscosity, or a zero Reynolds number
(zero flow rate with a valid diameter and viscosity) makes the engine
fail with the division-by-zero error; no `inf` or `NaN` result is
produced. -/
theorem C3_zero_division :
    (∀ L Q rho mu : ℝ,
      engine (.finite L) (.finite 0) (.finite Q) (.finite rho) (.finite mu) =
        .error .zeroDivision) ∧
    (∀ L D Q rho : ℝ,
      engine (.finite L) (.finite D) (.finite Q) (.finite rho) (.finite 0) =
        .error .zeroDivision) ∧
    (∀ L D Q rho mu : ℝ, D ≠ 0 → mu ≠ 0 → ReVal D Q rho mu = 0 →
      engine (.finite L) (.finite D) (.finite Q) (.finite rho) (.finite mu) =
        .error .zeroDivision) := by
  have hpi := Real.pi_pos
  refine ⟨fun L Q rho mu => ?_, fun L D Q rho => ?_,
    fun L D Q rho mu hD hmu hRe0 => ?_⟩
  · have h0 : Real.pi * ((0 : ℝ) / 2) ^ 2 = 0 := by norm_num
    simp only [engine, pydiv_ff (0 : ℝ) 2 two_ne_zero, ok_bind, pySq_f,
      pymul_ff, h0, pydiv_zero_divisor, error_bind]
  · by_cases hD : D = 0
    · subst hD
      have h0 : Real.pi * ((0 : ℝ) / 2) ^ 2 = 0 := by norm_num
      simp only [engine, pydiv_ff (0 : ℝ) 2 two_ne_zero, ok_bind, pySq_f,
        pymul_ff, h0, pydiv_zero_divisor, error_bind]
    · have hA : Real.pi * (D / 2) ^ 2 ≠ 0 := by positivity
      simp only [engine, pydiv_ff D 2 two_ne_zero, ok_bind, pySq_f, pymul_ff,
        pydiv_ff Q _ hA, pydiv_zero_divisor, error_bind]
  · have hA : Real.pi * (D / 2) ^ 2 ≠ 0 := by positivity
    unfold ReVal Vval Aval at hRe0
    simp only [engine, pydiv_ff D 2 two_ne_zero, ok_bind, pySq_f, pymul_ff,
      pydiv_ff Q _ hA, pydiv_ff _ mu hmu, hRe0, calculate_friction_factor,
      pyPowQuarter_f 0 le_rfl, Real.zero_rpow (by norm_num : (0.25 : ℝ) ≠ 0),
      pydiv_zero_divisor, error_bind, pylt_f]

/-- C3 witness: the theorem's third case applied at the concrete input
`Q = 0`, `D = 1`, `mu = 1` (zero flow rate, hence zero Reynolds
number). -/
theorem C3_zero_division_witness :
    (1 : ℝ) ≠ 0 ∧ ReVal 1 0 1 1 = 0 ∧
    engine (.finite 1) (.finite 1) (.finite 0) (.finite 1) (.finite 1) =
      .error .zeroDivision :=
  ⟨by norm_num, by unfold ReVal Vval Aval; simp,
   C3_zero_division.2.2 1 1 0 1 1 (by norm_num) (by norm_num)
     (by unfold ReVal Vval Aval; simp)⟩

/-- C4 counterexample: with `L = -100` negative and the remaining
fields positive (`D = 1`, `Q = 1`, `rho = 1000`, `mu = 0.001`), the
engine does not fail at all: it silently returns a full result (with no
laminar warning), contradicting the claim that every negative field
causes a domain-error-class failure. -/
theorem C4_negative_counterexample :
    engine (.finite (-100)) (.finite 1) (.finite 1) (.finite 1000)
        (.finite (1 / 1000)) =
      .ok ⟨.finite (Vval 1 1), .finite (ReVal 1 1 1000 (1 / 1000)),
           .finite (fval (ReVal 1 1 1000 (1 / 1000))),
           .finite (hfval (-100) 1 1 1000 (1 / 1000)),
           .finite (dPval (-100) 1 1 1000 (1 / 1000)), ""⟩ := by
  have hRe : 0 < ReVal 1 1 1000 (1 / 1000) := by
    unfold ReVal Vval Aval
    positivity
  have hge : ¬(ReVal 1 1 1000 (1 / 1000) < 2100) := ReVal_default_not_laminar
  have h := engine_finite_ok (-100) 1 1 1000 (1 / 1000) (by norm_num)
    (by norm_num) hRe
  rw [h, if_neg hge]

/-- C4 (amended): the engine performs no validation of signs: on a
negative length `L` with the other inputs positive it silently
succeeds, producing a negative head loss and a negative pressure drop
instead of any error. -/
theorem C4_amended_negative_silent (L D Q rho mu : ℝ) (hL : L < 0)
    (hD : 0 < D) (hQ : 0 < Q) (hrho : 0 < rho) (hmu : 0 < mu) :
    engine (.finite L) (.finite D) (.finite Q) (.finite rho) (.finite mu) =
      .ok ⟨.finite (Vval D Q), .finite (ReVal D Q rho mu),
           .finite (fval (ReVal D Q rho mu)), .finite (hfval L D Q rho mu),
           .finite (dPval L D Q rho mu),
           if ReVal D Q rho mu < 2100 then laminarWarning else ""⟩ ∧
    hfval L D Q rho mu < 0 ∧ dPval L D Q rho mu < 0 := by
  have hRe : 0 < ReVal D Q rho mu := by
    unfold ReVal Vval Aval
    positivity
  have hf1 : 0 < fval (ReVal D Q rho mu) := by
    unfold fval ReVal Vval Aval
    positivity
  have hf2 : L / D < 0 := div_neg_of_neg_of_pos hL hD
  have hf3 : 0 < Vval D Q ^ 2 / (2 * g) := by
    unfold Vval Aval g
    positivity
  have hhf : hfval L D Q rho mu < 0 := by
    unfold hfval
    exact mul_neg_of_neg_of_pos (mul_neg_of_pos_of_neg hf1 hf2) hf3
  refine ⟨engine_finite_ok L D Q rho mu hD.ne' hmu.ne' hRe, hhf, ?_⟩
  unfold dPval
  have hrg : 0 < rho * g := by
    unfold g
    positivity
  exact mul_neg_of_pos_of_neg hrg hhf

/-- C4 amended witness: the amended theorem applied at the concrete
input `(-100, 1, 1, 1000, 0.001)`. -/
theorem C4_amended_negative_silent_witness :
    (-100 : ℝ) < 0 ∧
    (engine (.finite (-100)) (.finite 1) (.finite 1) (.finite 1000)
        (.finite (1 / 1000)) =
      .ok ⟨.finite (Vval 1 1), .finite (ReVal 1 1 1000 (1 / 1000)),
           .finite (fval (ReVal 1 1 1000 (1 / 1000))),
           .finite (hfval (-100) 1 1 1000 (1 / 1000)),
           .finite (dPval (-100) 1 1 1000 (1 / 1000)),
           if ReVal 1 1 1000 (1 / 1000) < 2100 then laminarWarning else ""⟩ ∧
     hfval (-100) 1 1 1000 (1 / 1000) < 0 ∧
     dPval (-100) 1 1 1000 (1 / 1000) < 0) :=
  ⟨by norm_num,
   C4_amended_negative_silent (-100) 1 1 1000 (1 / 1000) (by norm_num)
     (by norm_num) (by norm_num) (by norm_num) (by norm_num)⟩

theorem fmt_finite (prec : ℕ) (x : ℝ) :
    fmt prec (.finite x) = fixedString prec (round (x * 10 ^ prec)) := rfl

/-- C8 counterexample: at the positive input `(L, D, Q, rho, mu) =
(100, 1, pi/4, 10000, 1)` the engine yields `hf = 791/4905 = 0.16126...`
(formatted `"0.161"`) and `deltaP = 15820` exactly (formatted
`"15820"`), but recomputing `rho * g * hf` from the parsed-back
formatted head loss gives `98100 * 0.161 = 15794.1`, which misses the
formatted `deltaP` by `25.9` Pa, far beyond the one-unit precision of
the `deltaP` format. -/
theorem C8_roundtrip_counterexample :
    engine (.finite 100) (.finite 1) (.finite (Real.pi / 4)) (.finite 10000)
        (.finite 1) =
      .ok ⟨.finite 1, .finite 10000, .finite (791 / 25000),
           .finite (791 / 4905), .finite 15820, ""⟩ ∧
    fmt 3 (.finite (791 / 4905)) = "0.161" ∧
    parsePyFloat "0.161" = .ok (.finite 161 (-3)) ∧
    (PreNum.finite 161 (-3)).toPyNum = .finite 0.161 ∧
    fmt 0 (.finite 15820) = "15820" ∧
    1 < |(10000 : ℝ) * 9.81 * (0.161 : ℝ) - 15820| := by
  have hpi := Real.pi_pos
  have hV : Vval 1 (Real.pi / 4) = 1 := by
    unfold Vval Aval
    field_simp
    ring
  have hRe : ReVal 1 (Real.pi / 4) 10000 1 = 10000 := by
    unfold ReVal
    rw [hV]
    norm_num
  have hq : ((10000 : ℝ) ^ (0.25 : ℝ)) = 10 := by
    have h : (10000 : ℝ) = (10 : ℝ) ^ (4 : ℕ) := by norm_num
    rw [h, ← Real.rpow_natCast 10 4,
      ← Real.rpow_mul (by norm_num : (0 : ℝ) ≤ 10)]
    norm_num
  have hf : fval 10000 = 791 / 25000 := by
    unfold fval
    rw [hq]
    norm_num
  have hhf : hfval 100 1 (Real.pi / 4) 10000 1 = 791 / 4905 := by
    unfold hfval
    rw [hRe, hf, hV]
    unfold g
    norm_num
  have hdp : dPval 100 1 (Real.pi / 4) 10000 1 = 15820 := by
    unfold dPval
    rw [hhf]
    unfold g
    norm_num
  have heng := engine_finite_ok 100 1 (Real.pi / 4) 10000 1 (by norm_num)
    (by norm_num) (by rw [hRe]; norm_num)
  rw [hV, hRe, hhf, hdp, hf, if_neg (by norm_num : ¬((10000 : ℝ) < 2100))]
    at heng
  refine ⟨heng, ?_, by decide, ?_, ?_, ?_⟩
  · rw [fmt_finite]
    have hr : round ((791 / 4905 : ℝ) * 10 ^ (3 : ℕ)) = 161 := by
      rw [round_eq]
      norm_num
    rw [hr]
    decide
  · simp only [PreNum.toPyNum]
    norm_num
  · rw [fmt_finite]
    have hr : round ((15820 : ℝ) * 10 ^ (0 : ℕ)) = 15820 := by
      rw [round_eq]
      norm_num
    rw [hr]
    decide
  · rw [lt_abs]
    right
    norm_num

/-- C8 (amended): recomputing `rho * g * hf` from the head loss rounded
to the 3 decimals of its display format agrees with the integer-rounded
`deltaP` only up to `rho * g * 0.0005 + 0.5` (half an ulp of the `hf`
format scaled by `rho * g`, plus half an ulp of the `deltaP` format) --
not within the decimal precision of the `deltaP` format itself. -/
theorem C8_roundtrip_amended (L D Q rho mu : ℝ) (hL : 0 < L) (hD : 0 < D)
    (hQ : 0 < Q) (hrho : 0 < rho) (hmu : 0 < mu) :
    |rho * g * roundTo 3 (hfval L D Q rho mu) -
        roundTo 0 (dPval L D Q rho mu)| ≤
      rho * g * (1 / 2000) + 1 / 2 := by
  have hg : (0 : ℝ) < g := by
    unfold g
    norm_num
  have hrg : (0 : ℝ) < rho * g := mul_pos hrho hg
  set h := hfval L D Q rho mu with hh
  have hd : dPval L D Q rho mu = rho * g * h := rfl
  have h1 : |roundTo 3 h - h| ≤ 1 / 2000 := by
    unfold roundTo
    have h10 : ((10 : ℝ) ^ (3 : ℕ)) = 1000 := by norm_num
    have hsplit : (round (h * 10 ^ (3 : ℕ)) : ℝ) / 10 ^ (3 : ℕ) - h =
        -((h * 1000 - (round (h * 10 ^ (3 : ℕ)) : ℝ)) / 1000) := by
      rw [h10]
      ring
    rw [hsplit, abs_neg, abs_div, abs_of_pos (by norm_num : (0 : ℝ) < 1000)]
    have := abs_sub_round (h * 10 ^ (3 : ℕ))
    rw [h10] at this
    linarith
  have h2 : |rho * g * roundTo 3 h - rho * g * h| ≤ rho * g * (1 / 2000) := by
    rw [← mul_sub, abs_mul, abs_of_pos hrg]
    exact mul_le_mul_of_nonneg_left h1 hrg.le
  have h3 : |rho * g * h - roundTo 0 (rho * g * h)| ≤ 1 / 2 := by
    unfold roundTo
    have h100 : ((10 : ℝ) ^ (0 : ℕ)) = 1 := by norm_num
    rw [h100, mul_one, div_one]
    exact abs_sub_round (rho * g * h)
  calc |rho * g * roundTo 3 h - roundTo 0 (dPval L D Q rho mu)|
      = |rho * g * roundTo 3 h - roundTo 0 (rho * g * h)| := by rw [hd]
    _ ≤ |rho * g * roundTo 3 h - rho * g * h| +
          |rho * g * h - roundTo 0 (rho * g * h)| := abs_sub_le _ _ _
    _ ≤ rho * g * (1 / 2000) + 1 / 2 := add_le_add h2 h3

/-- C8 amended witness: the amended bound applied at the concrete
positive input `(1, 1, 1, 1, 1)`. -/
theorem C8_roundtrip_amended_witness :
    (0 : ℝ) < 1 ∧
    |(1 : ℝ) * g * roundTo 3 (hfval 1 1 1 1 1) - roundTo 0 (dPval 1 1 1 1 1)| ≤
      1 * g * (1 / 2000) + 1 / 2 :=
  ⟨by norm_num,
   C8_roundtrip_amended 1 1 1 1 1 (by norm_num) (by norm_num) (by norm_num)
     (by norm_num) (by norm_num)⟩

/-! ### Handler-level lemmas -/

@[simp] theorem toPyNum_finite (m e : ℤ) :
    (PreNum.finite m e).toPyNum = .finite ((m : ℝ) * 10 ^ e) := rfl

@[simp] theorem toPyNum_inf : PreNum.inf.toPyNum = .inf := rfl

@[simp] theorem toPyNum_negInf : PreNum.negInf.toPyNum = .negInf := rfl

@[simp] theorem toPyNum_nan : PreNum.nan.toPyNum = .nan := rfl

@[simp] theorem fmt_inf (p : ℕ) : fmt p .inf = "inf" := rfl

@[simp] theorem fmt_negInf (p : ℕ) : fmt p .negInf = "-inf" := rfl

@[simp] theorem fmt_nan (p : ℕ) : fmt p .nan = "nan" := rfl

/-- Python's `float` raises only `ValueError`: every parse either
succeeds or fails with `ValueError`. -/
theorem parse_cases (s : String) :
    (∃ v, parsePyFloat s = .ok v) ∨ parsePyFloat s = .error .valueError := by
  unfold parsePyFloat
  dsimp only
  split
  · exact .inl ⟨_, rfl⟩
  · split
    · exact .inl ⟨_, rfl⟩
    · split
      · exact .inl ⟨_, rfl⟩
      · exact .inr rfl

theorem getRequired_some (form : List (String × String)) (k s : String)
    (h : lookupField form k = some s) :
    getRequired form k = parsePyFloat s := by
  simp [getRequired, h]

theorem getRequired_none (form : List (String × String)) (k : String)
    (h : lookupField form k = none) :
    getRequired form k = .error .keyError := by
  simp [getRequired, h]

theorem getOptional_some (form : List (String × String)) (k s : String)
    (d : PreNum) (h : lookupField form k = some s) :
    getOptional form k d = parsePyFloat s := by
  simp [getOptional, h]

theorem getOptional_none (form : List (String × String)) (k : String)
    (d : PreNum) (h : lookupField form k = none) :
    getOptional form k d = .ok d := by
  simp [getOptional, h]

/-- When the `try` body raises `ValueError`, the handler renders the
error record. -/
theorem calculator_valueError (form : List (String × String))
    (h : postCompute form = .error .valueError) :
    calculator .POST form = .page (some (.err parseErrorMsg)) := by
  simp [calculator, h]

/-- When the `try` body raises an exception other than `ValueError`,
it escapes the handler. -/
theorem calculator_crash (form : List (String × String)) (e : PyErr)
    (h : postCompute form = .error e) (hne : e ≠ .valueError) :
    calculator .POST form = .crash e := by
  cases e
  · exact absurd rfl hne
  · simp [calculator, h]
  · simp [calculator, h]

/-- If the three required fields are present and any present field
fails to parse, the handler renders the parse-error record (shared
workhorse for the parse-failure claims). -/
theorem calculator_err_of_bad_parse (form : List (String × String))
    (sL sD sQ : String)
    (hL : lookupField form "L" = some sL)
    (hD : lookupField form "D" = some sD)
    (hQ : lookupField form "Q" = some sQ)
    (hbad : parsePyFloat sL = .error .valueError ∨
      parsePyFloat sD = .error .valueError ∨
      parsePyFloat sQ = .error .valueError ∨
      (∃ s, lookupField form "rho" = some s ∧
        parsePyFloat s = .error .valueError) ∨
      (∃ s, lookupField form "mu" = some s ∧
        parsePyFloat s = .error .valueError)) :
    calculator .POST form = .page (some (.err parseErrorMsg)) := by
  apply calculator_valueError
  have hgL := getRequired_some form "L" sL hL
  have hgD := getRequired_some form "D" sD hD
  have hgQ := getRequired_some form "Q" sQ hQ
  rcases parse_cases sL with ⟨vL, hvL⟩ | hvL
  case inr =>
    simp [postCompute, hgL, hvL]
  rcases parse_cases sD with ⟨vD, hvD⟩ | hvD
  case inr =>
    simp [postCompute, hgL, hvL, hgD, hvD]
  rcases parse_cases sQ with ⟨vQ, hvQ⟩ | hvQ
  case inr =>
    simp [postCompute, hgL, hvL, hgD, hvD, hgQ, hvQ]
  rcases hlr : lookupField form "rho" with _ | sr
  case some =>
    rcases parse_cases sr with ⟨vr, hvr⟩ | hvr
    case inr =>
      simp [postCompute, hgL, hvL, hgD, hvD, hgQ, hvQ,
        getOptional_some form "rho" sr rho_water hlr, hvr]
    rcases hlm : lookupField form "mu" with _ | sm
    case some =>
      rcases parse_cases sm with ⟨vm, hvm⟩ | hvm
      case inr =>
        simp [postCompute, hgL, hvL, hgD, hvD, hgQ, hvQ,
          getOptional_some form "rho" sr rho_water hlr, hvr,
          getOptional_some form "mu" sm mu_water hlm, hvm]
      -- all five fields parse: contradicts hbad
      exfalso
      rcases hbad with hb | hb | hb | ⟨s, hs, hb⟩ | ⟨s, hs, hb⟩
      · rw [hvL] at hb
        exact Except.noConfusion hb
      · rw [hvD] at hb
        exact Except.noConfusion hb
      · rw [hvQ] at hb
        exact Except.noConfusion hb
      · rw [hlr] at hs
        cases hs
        rw [hvr] at hb
        exact Except.noConfusion hb
      · rw [hlm] at hs
        cases hs
        rw [hvm] at hb
        exact Except.noConfusion hb
    case none =>
      -- mu absent: only the first four disjuncts are possible
      exfalso
      rcases hbad with hb | hb | hb | ⟨s, hs, hb⟩ | ⟨s, hs, hb⟩
      · rw [hvL] at hb
        exact Except.noConfusion hb
      · rw [hvD] at hb
        exact Except.noConfusion hb
      · rw [hvQ] at hb
        exact Except.noConfusion hb
      · rw [hlr] at hs
        cases hs
        rw [hvr] at hb
        exact Except.noConfusion hb
      · rw [hlm] at hs
        exact Option.noConfusion hs
  case none =>
    rcases hlm : lookupField form "mu" with _ | sm
    case some =>
      rcases parse_cases sm with ⟨vm, hvm⟩ | hvm
      case inr =>
        simp [postCompute, hgL, hvL, hgD, hvD, hgQ, hvQ,
          getOptional_none form "rho" rho_water hlr,
          getOptional_some form "mu" sm mu_water hlm, hvm]
      exfalso
      rcases hbad with hb | hb | hb | ⟨s, hs, hb⟩ | ⟨s, hs, hb⟩
      · rw [hvL] at hb
        exact Except.noConfusion hb
      · rw [hvD] at hb
        exact Except.noConfusion hb
      · rw [hvQ] at hb
        exact Except.noConfusion hb
      · rw [hlr] at hs
        exact Option.noConfusion hs
      · rw [hlm] at hs
        cases hs
        rw [hvm] at hb
        exact Except.noConfusion hb
    case none =>
      exfalso
      rcases hbad with hb | hb | hb | ⟨s, hs, hb⟩ | ⟨s, hs, hb⟩
      · rw [hvL] at hb
        exact Except.noConfusion hb
      · rw [hvD] at hb
        exact Except.noConfusion hb
      · rw [hvQ] at hb
        exact Except.noConfusion hb
      · rw [hlr] at hs
        exact Option.noConfusion hs
      · rw [hlm] at hs
        exact Option.noConfusion hs

/-- C5: if the three required fields are present and any present field
(required or optional) fails to parse as a number, the handler renders
exactly the single error message `"Please enter valid numbers."` and no
numeric results. -/
theorem C5_parse_failure (form : List (String × String)) (sL sD sQ : String)
    (hL : lookupField form "L" = some sL)
    (hD : lookupField form "D" = some sD)
    (hQ : lookupField form "Q" = some sQ)
    (hbad : parsePyFloat sL = .error .valueError ∨
      parsePyFloat sD = .error .valueError ∨
      parsePyFloat sQ = .error .valueError ∨
      (∃ s, lookupField form "rho" = some s ∧
        parsePyFloat s = .error .valueError) ∨
      (∃ s, lookupField form "mu" = some s ∧
        parsePyFloat s = .error .valueError)) :
    calculator .POST form = .page (some (.err parseErrorMsg)) :=
  calculator_err_of_bad_parse form sL sD sQ hL hD hQ hbad

/-- C5 witness: the theorem applied to the concrete submission with
`L = "abc"`. -/
theorem C5_parse_failure_witness :
    lookupField [("L", "abc"), ("D", "1"), ("Q", "1")] "L" = some "abc" ∧
    parsePyFloat "abc" = .error .valueError ∧
    calculator .POST [("L", "abc"), ("D", "1"), ("Q", "1")] =
      .page (some (.err parseErrorMsg)) :=
  ⟨by decide, by decide,
   C5_parse_failure [("L", "abc"), ("D", "1"), ("Q", "1")] "abc" "1" "1"
     (by decide) (by decide) (by decide) (.inl (by decide))⟩

/-- C6: an absent `rho` field makes the computation use the default
density 1000, an absent `mu` field the default viscosity 0.001; the
required fields `L`, `D`, `Q` have no defaults -- a missing one raises
a `KeyError`-class error that escapes the handler. -/
theorem C6_defaults (form : List (String × String)) :
    (lookupField form "rho" = none →
      getOptional form "rho" rho_water = .ok rho_water ∧
      rho_water.toPyNum = .finite 1000) ∧
    (lookupField form "mu" = none →
      getOptional form "mu" mu_water = .ok mu_water ∧
      mu_water.toPyNum = .finite 0.001) ∧
    (lookupField form "L" = none → calculator .POST form = .crash .keyError) ∧
    (∀ sL vL, lookupField form "L" = some sL → parsePyFloat sL = .ok vL →
      lookupField form "D" = none → calculator .POST form = .crash .keyError) ∧
    (∀ sL vL sD vD, lookupField form "L" = some sL → parsePyFloat sL = .ok vL →
      lookupField form "D" = some sD → parsePyFloat sD = .ok vD →
      lookupField form "Q" = none → calculator .POST form = .crash .keyError) := by
  refine ⟨fun h => ⟨getOptional_none form "rho" rho_water h, ?_⟩,
    fun h => ⟨getOptional_none form "mu" mu_water h, ?_⟩,
    fun h => ?_, fun sL vL hsL hvL h => ?_, fun sL vL sD vD hsL hvL hsD hvD h => ?_⟩
  · simp only [rho_water, toPyNum_finite]
    norm_num
  · simp only [mu_water, toPyNum_finite]
    norm_num
  · refine calculator_crash form .keyError ?_ (by simp)
    simp [postCompute, getRequired_none form "L" h]
  · refine calculator_crash form .keyError ?_ (by simp)
    simp [postCompute, getRequired_some form "L" sL hsL, hvL,
      getRequired_none form "D" h]
  · refine calculator_crash form .keyError ?_ (by simp)
    simp [postCompute, getRequired_some form "L" sL hsL, hvL,
      getRequired_some form "D" sD hsD, hvD, getRequired_none form "Q" h]

/-- C6 witness: the theorem applied to the concrete submission that
contains only `D`, so `rho`, `mu` and `L` are all absent. -/
theorem C6_defaults_witness :
    (getOptional [("D", "1")] "rho" rho_water = .ok rho_water ∧
      rho_water.toPyNum = .finite 1000) ∧
    (getOptional [("D", "1")] "mu" mu_water = .ok mu_water ∧
      mu_water.toPyNum = .finite 0.001) ∧
    calculator .POST [("D", "1")] = .crash .keyError :=
  ⟨(C6_defaults [("D", "1")]).1 (by decide),
   (C6_defaults [("D", "1")]).2.1 (by decide),
   (C6_defaults [("D", "1")]).2.2.1 (by decide)⟩

/-- C10: the optional-field defaults apply only to absent keys: a `rho`
or `mu` field that is present but holds the empty string fails to parse
(Python `float("")` raises `ValueError`), so the handler renders the
parse-error message instead of substituting the default. -/
theorem C10_empty_optional (form : List (String × String)) (sL sD sQ : String)
    (hL : lookupField form "L" = some sL)
    (hD : lookupField form "D" = some sD)
    (hQ : lookupField form "Q" = some sQ) :
    parsePyFloat "" = .error .valueError ∧
    (lookupField form "rho" = some "" →
      calculator .POST form = .page (some (.err parseErrorMsg))) ∧
    (lookupField form "mu" = some "" →
      calculator .POST form = .page (some (.err parseErrorMsg))) := by
  refine ⟨by decide, fun h => ?_, fun h => ?_⟩
  · exact calculator_err_of_bad_parse form sL sD sQ hL hD hQ
      (.inr (.inr (.inr (.inl ⟨"", h, by decide⟩))))
  · exact calculator_err_of_bad_parse form sL sD sQ hL hD hQ
      (.inr (.inr (.inr (.inr ⟨"", h, by decide⟩))))

/-- C7: whenever the five fields parse and the engine succeeds, the
rendered results are exactly `V` to three decimals plus `" m/s"`, `Re`
to zero decimals (integer string, no decimal point), `f` to four
decimals, `hf` to three decimals plus `" m"`, and `delta_P` as the
zero-decimal value plus `" Pa ("` plus the value divided by 1000 to two
decimals plus `" kPa)"`. -/
theorem C7_format_contract (form : List (String × String))
    (vL vD vQ vr vm : PreNum) (e : EngineOut) (dp : ℝ)
    (hL : getRequired form "L" = .ok vL)
    (hD : getRequired form "D" = .ok vD)
    (hQ : getRequired form "Q" = .ok vQ)
    (hr : getOptional form "rho" rho_water = .ok vr)
    (hm : getOptional form "mu" mu_water = .ok vm)
    (he : engine vL.toPyNum vD.toPyNum vQ.toPyNum vr.toPyNum vm.toPyNum =
      .ok e)
    (hdp : e.delta_P = .finite dp) :
    calculator .POST form = .page (some (.ok
      (fmt 3 e.V ++ " m/s") (fmt 0 e.Re) (fmt 4 e.f) (fmt 3 e.hf ++ " m")
      (fmt 0 (.finite dp) ++ " Pa (" ++ fmt 2 (.finite (dp / 1000)) ++ " kPa)")
      e.warning)) := by
  have hpc : postCompute form = .ok (.ok
      (fmt 3 e.V ++ " m/s") (fmt 0 e.Re) (fmt 4 e.f) (fmt 3 e.hf ++ " m")
      (fmt 0 (.finite dp) ++ " Pa (" ++ fmt 2 (.finite (dp / 1000)) ++ " kPa)")
      e.warning) := by
    simp only [postCompute, hL, hD, hQ, hr, hm, he, ok_bind, hdp,
      pydiv_ff dp 1000 (by norm_num), pure_eq_ok]
  simp [calculator, hpc]

/-- C7 witness: the format contract applied to the concrete submission
`L=100, D=2, Q=1, rho=1000, mu=1`. -/
theorem C7_format_contract_witness :
    calculator .POST [("L", "100"), ("D", "2"), ("Q", "1"), ("rho", "1000"),
        ("mu", "1")] =
      .page (some (.ok
        (fmt 3 (.finite (Vval 2 1)) ++ " m/s")
        (fmt 0 (.finite (ReVal 2 1 1000 1)))
        (fmt 4 (.finite (fval (ReVal 2 1 1000 1))))
        (fmt 3 (.finite (hfval 100 2 1 1000 1)) ++ " m")
        (fmt 0 (.finite (dPval 100 2 1 1000 1)) ++ " Pa (" ++
          fmt 2 (.finite (dPval 100 2 1 1000 1 / 1000)) ++ " kPa)")
        (if ReVal 2 1 1000 1 < 2100 then laminarWarning else ""))) := by
  have hwf : ∀ m e : ℤ, ∀ r : ℝ, ((m : ℝ) * 10 ^ e = r) →
      (PreNum.finite m e).toPyNum = .finite r := by
    intro m e r h
    rw [toPyNum_finite, h]
  have hRe : 0 < ReVal 2 1 1000 1 := by
    unfold ReVal Vval Aval
    positivity
  have he := engine_finite_ok 100 2 1 1000 1 (by norm_num) (by norm_num) hRe
  have happ := C7_format_contract
    [("L", "100"), ("D", "2"), ("Q", "1"), ("rho", "1000"), ("mu", "1")]
    (.finite 100 0) (.finite 2 0) (.finite 1 0) (.finite 1000 0) (.finite 1 0)
    ⟨.finite (Vval 2 1), .finite (ReVal 2 1 1000 1),
      .finite (fval (ReVal 2 1 1000 1)), .finite (hfval 100 2 1 1000 1),
      .finite (dPval 100 2 1 1000 1),
      if ReVal 2 1 1000 1 < 2100 then laminarWarning else ""⟩
    (dPval 100 2 1 1000 1)
    (by decide) (by decide) (by decide) (by decide) (by decide)
    (by rw [hwf 100 0 100 (by norm_num), hwf 2 0 2 (by norm_num),
          hwf 1 0 1 (by norm_num), hwf 1000 0 1000 (by norm_num)]
        exact he)
    rfl
  exact happ

theorem pymul_f_inf (a : ℝ) (h : 0 < a) : pymul (.finite a) .inf = .inf := by
  simp [pymul, h]

theorem pymul_inf_f (b : ℝ) (h : 0 < b) : pymul .inf (.finite b) = .inf := by
  simp [pymul, h]

@[simp] theorem pymul_f_nan (a : ℝ) : pymul (.finite a) .nan = .nan := rfl

@[simp] theorem pymul_nan_f (b : ℝ) : pymul .nan (.finite b) = .nan := rfl

theorem pydiv_inf_f (b : ℝ) (h : 0 < b) : pydiv .inf (.finite b) = .ok .inf := by
  simp [pydiv, h.ne', h]

theorem pydiv_nan_f (b : ℝ) (h : b ≠ 0) :
    pydiv .nan (.finite b) = .ok .nan := by
  simp [pydiv, h]

theorem toPyNum_eq (m e : ℤ) (r : ℝ) (h : (m : ℝ) * 10 ^ e = r) :
    (PreNum.finite m e).toPyNum = .finite r := by
  rw [toPyNum_finite, h]

/-- On an infinite length `L` and positive finite remaining fields, the
engine succeeds with an infinite head loss and pressure drop (the
infinity only enters at the `hf` step). -/
theorem engine_inf_L (D Q rho mu : ℝ) (hD : 0 < D) (hQ : 0 < Q)
    (hrho : 0 < rho) (hmu : 0 < mu) :
    engine .inf (.finite D) (.finite Q) (.finite rho) (.finite mu) =
      .ok ⟨.finite (Vval D Q), .finite (ReVal D Q rho mu),
           .finite (fval (ReVal D Q rho mu)), .inf, .inf,
           if ReVal D Q rho mu < 2100 then laminarWarning else ""⟩ := by
  have hpi := Real.pi_pos
  have hRe : 0 < ReVal D Q rho mu := by
    unfold ReVal Vval Aval
    positivity
  have hfpos : 0 < fval (ReVal D Q rho mu) := by
    unfold fval ReVal Vval Aval
    positivity
  have hvg : 0 < Vval D Q ^ 2 / (2 * g) := by
    unfold Vval Aval g
    positivity
  have hrg : 0 < rho * g := mul_pos hrho g_pos
  simp only [Vval, Aval, ReVal, fval] at hRe hfpos hvg ⊢
  have hA : Real.pi * (D / 2) ^ 2 ≠ 0 := by positivity
  have hq : (rho * (Q / (Real.pi * (D / 2) ^ 2)) * D / mu) ^ (0.25 : ℝ) ≠ 0 :=
    (Real.rpow_pos_of_pos hRe _).ne'
  have h2g : (2 : ℝ) * g ≠ 0 := by norm_num [g]
  simp only [engine, calculate_friction_factor, pymul_ff, pySq_f, pylt_f,
    pydiv_ff D 2 two_ne_zero, ok_bind]
  simp only [pydiv_ff Q _ hA, ok_bind, pymul_ff]
  simp only [pydiv_ff _ mu hmu.ne', ok_bind, pymul_ff, pySq_f, pylt_f]
  rw [pyPowQuarter_f _ hRe.le]
  simp only [pydiv_ff _ _ hq, ok_bind, pydiv_inf_f D hD, pydiv_ff _ _ h2g,
    pymul_ff, pure_eq_ok, decide_eq_true_eq, pymul_f_inf _ hfpos,
    pymul_inf_f _ hvg, pymul_f_inf _ hrg]

/-- On a NaN length `L` and positive finite remaining fields, the
engine succeeds with a NaN head loss and pressure drop. -/
theorem engine_nan_L (D Q rho mu : ℝ) (hD : 0 < D) (hQ : 0 < Q)
    (hrho : 0 < rho) (hmu : 0 < mu) :
    engine .nan (.finite D) (.finite Q) (.finite rho) (.finite mu) =
      .ok ⟨.finite (Vval D Q), .finite (ReVal D Q rho mu),
           .finite (fval (ReVal D Q rho mu)), .nan, .nan,
           if ReVal D Q rho mu < 2100 then laminarWarning else ""⟩ := by
  have hpi := Real.pi_pos
  have hRe : 0 < ReVal D Q rho mu := by
    unfold ReVal Vval Aval
    positivity
  simp only [Vval, Aval, ReVal, fval] at hRe ⊢
  have hA : Real.pi * (D / 2) ^ 2 ≠ 0 := by positivity
  have hq : (rho * (Q / (Real.pi * (D / 2) ^ 2)) * D / mu) ^ (0.25 : ℝ) ≠ 0 :=
    (Real.rpow_pos_of_pos hRe _).ne'
  have h2g : (2 : ℝ) * g ≠ 0 := by norm_num [g]
  simp only [engine, calculate_friction_factor, pymul_ff, pySq_f, pylt_f,
    pydiv_ff D 2 two_ne_zero, ok_bind]
  simp only [pydiv_ff Q _ hA, ok_bind, pymul_ff]
  simp only [pydiv_ff _ mu hmu.ne', ok_bind, pymul_ff, pySq_f, pylt_f]
  rw [pyPowQuarter_f _ hRe.le]
  simp only [pydiv_ff _ _ hq, ok_bind, pydiv_nan_f D hD.ne', pydiv_ff _ _ h2g,
    pymul_ff, pure_eq_ok, decide_eq_true_eq, pymul_f_nan, pymul_nan_f]

/-- C9 (implicit): Python's `float` accepts the strings `"nan"`,
`"inf"` and `"-inf"`, so a submission carrying such a value renders a
full results block containing `inf` or `nan` values rather than the
parse-error message. -/
theorem C9_special_value_strings :
    parsePyFloat "nan" = .ok .nan ∧
    parsePyFloat "inf" = .ok .inf ∧
    parsePyFloat "-inf" = .ok .negInf ∧
    calculator .POST [("L", "inf"), ("D", "1"), ("Q", "1"), ("rho", "1000"),
        ("mu", "0.001")] =
      .page (some (.ok
        (fmt 3 (.finite (Vval 1 1)) ++ " m/s")
        (fmt 0 (.finite (ReVal 1 1 1000 (1 / 1000))))
        (fmt 4 (.finite (fval (ReVal 1 1 1000 (1 / 1000)))))
        "inf m" "inf Pa (inf kPa)" "")) ∧
    calculator .POST [("L", "nan"), ("D", "1"), ("Q", "1"), ("rho", "1000"),
        ("mu", "0.001")] =
      .page (some (.ok
        (fmt 3 (.finite (Vval 1 1)) ++ " m/s")
        (fmt 0 (.finite (ReVal 1 1 1000 (1 / 1000))))
        (fmt 4 (.finite (fval (ReVal 1 1 1000 (1 / 1000)))))
        "nan m" "nan Pa (nan kPa)" "")) := by
  have hm1 : ("inf" : String) ++ " m" = "inf m" := by decide
  have hm2 : ("inf" : String) ++ " Pa (" ++ "inf" ++ " kPa)" =
      "inf Pa (inf kPa)" := by decide
  have hn1 : ("nan" : String) ++ " m" = "nan m" := by decide
  have hn2 : ("nan" : String) ++ " Pa (" ++ "nan" ++ " kPa)" =
      "nan Pa (nan kPa)" := by decide
  refine ⟨by decide, by decide, by decide, ?_, ?_⟩
  · have hL9 : getRequired [("L", "inf"), ("D", "1"), ("Q", "1"),
        ("rho", "1000"), ("mu", "0.001")] "L" = .ok .inf := by decide
    have hD9 : getRequired [("L", "inf"), ("D", "1"), ("Q", "1"),
        ("rho", "1000"), ("mu", "0.001")] "D" = .ok (.finite 1 0) := by decide
    have hQ9 : getRequired [("L", "inf"), ("D", "1"), ("Q", "1"),
        ("rho", "1000"), ("mu", "0.001")] "Q" = .ok (.finite 1 0) := by decide
    have hr9 : getOptional [("L", "inf"), ("D", "1"), ("Q", "1"),
        ("rho", "1000"), ("mu", "0.001")] "rho" rho_water =
        .ok (.finite 1000 0) := by decide
    have hmu9 : getOptional [("L", "inf"), ("D", "1"), ("Q", "1"),
        ("rho", "1000"), ("mu", "0.001")] "mu" mu_water =
        .ok (.finite 1 (-3)) := by decide
    have hpc : postCompute [("L", "inf"), ("D", "1"), ("Q", "1"),
        ("rho", "1000"), ("mu", "0.001")] = .ok (.ok
          (fmt 3 (.finite (Vval 1 1)) ++ " m/s")
          (fmt 0 (.finite (ReVal 1 1 1000 (1 / 1000))))
          (fmt 4 (.finite (fval (ReVal 1 1 1000 (1 / 1000)))))
          "inf m" "inf Pa (inf kPa)" "") := by
      rw [postCompute, hL9, hD9, hQ9, hr9, hmu9]
      simp only [ok_bind, toPyNum_inf, toPyNum_eq 1 0 1 (by norm_num),
        toPyNum_eq 1000 0 1000 (by norm_num),
        toPyNum_eq 1 (-3) (1 / 1000) (by norm_num),
        engine_inf_L 1 1 1000 (1 / 1000) (by norm_num) (by norm_num)
          (by norm_num) (by norm_num),
        if_neg ReVal_default_not_laminar,
        pydiv_inf_f 1000 (by norm_num), fmt_inf, pure_eq_ok, hm1, hm2]
    simp [calculator, hpc]
  · have hL9 : getRequired [("L", "nan"), ("D", "1"), ("Q", "1"),
        ("rho", "1000"), ("mu", "0.001")] "L" = .ok .nan := by decide
    have hD9 : getRequired [("L", "nan"), ("D", "1"), ("Q", "1"),
        ("rho", "1000"), ("mu", "0.001")] "D" = .ok (.finite 1 0) := by decide
    have hQ9 : getRequired [("L", "nan"), ("D", "1"), ("Q", "1"),
        ("rho", "1000"), ("mu", "0.001")] "Q" = .ok (.finite 1 0) := by decide
    have hr9 : getOptional [("L", "nan"), ("D", "1"), ("Q", "1"),
        ("rho", "1000"), ("mu", "0.001")] "rho" rho_water =
        .ok (.finite 1000 0) := by decide
    have hmu9 : getOptional [("L", "nan"), ("D", "1"), ("Q", "1"),
        ("rho", "1000"), ("mu", "0.001")] "mu" mu_water =
        .ok (.finite 1 (-3)) := by decide
    have hpc : postCompute [("L", "nan"), ("D", "1"), ("Q", "1"),
        ("rho", "1000"), ("mu", "0.001")] = .ok (.ok
          (fmt 3 (.finite (Vval 1 1)) ++ " m/s")
          (fmt 0 (.finite (ReVal 1 1 1000 (1 / 1000))))
          (fmt 4 (.finite (fval (ReVal 1 1 1000 (1 / 1000)))))
          "nan m" "nan Pa (nan kPa)" "") := by
      rw [postCompute, hL9, hD9, hQ9, hr9, hmu9]
      simp only [ok_bind, toPyNum_nan, toPyNum_eq 1 0 1 (by norm_num),
        toPyNum_eq 1000 0 1000 (by norm_num),
        toPyNum_eq 1 (-3) (1 / 1000) (by norm_num),
        engine_nan_L 1 1 1000 (1 / 1000) (by norm_num) (by norm_num)
          (by norm_num) (by norm_num),
        if_neg ReVal_default_not_laminar,
        pydiv_nan_f 1000 (by norm_num), fmt_nan, pure_eq_ok, hn1, hn2]
    simp [calculator, hpc]

/-- C10 witness: the theorem applied to the concrete submission in
which `rho` is present but empty. -/
theorem C10_empty_optional_witness :
    lookupField [("L", "1"), ("D", "1"), ("Q", "1"), ("rho", "")] "rho" =
      some "" ∧
    calculator .POST [("L", "1"), ("D", "1"), ("Q", "1"), ("rho", "")] =
      .page (some (.err parseErrorMsg)) :=
  ⟨by decide,
   (C10_empty_optional [("L", "1"), ("D", "1"), ("Q", "1"), ("rho", "")]
     "1" "1" "1" (by decide) (by decide) (by decide)).2.1 (by decide)⟩

end FlaskApp
